import Mathlib

/-!
# Verification of the qx statement model, expression algebra, codec registry and SQL compiler

Shallow embedding of the qx library (`src/index.ts`, `src/bun-sqlite.ts`,
`src/utils.ts`).  JavaScript runtime values that flow into compiled
parameter lists and into insert records are modelled by `JSVal`; JS object
mutation (needed for the builder claims) is modelled by an explicit heap.
Every definition is translated from the TypeScript source, keeping the
source's field and function names where Lean's grammar allows it.
-/

set_option maxRecDepth 16384

namespace Qx

/-- `Date` objects are identified by their epoch-millisecond value
(`Date.prototype.valueOf`). -/
structure JSDate where
  epochMs : Int
deriving DecidableEq, Repr

/-- JavaScript runtime values that appear in records, parameters and
codec inputs/outputs: `undefined`, `null`, booleans, (integral) numbers,
strings, `Date` objects and byte blobs (`Uint8Array`). -/
inductive JSVal where
  | undefined
  | null
  | bool (b : Bool)
  | num (n : Int)
  | str (s : String)
  | date (d : JSDate)
  | bytes (bs : List UInt8)
deriving DecidableEq, Repr

/-- JS truthiness of a `JSVal` (`if (v)`): `undefined`, `null`, `false`,
`0` and the empty string are falsy; objects (dates, byte arrays) and all
other primitives are truthy. -/
def jsTruthy : JSVal → Bool
  | .undefined => false
  | .null => false
  | .bool b => b
  | .num n => n != 0
  | .str s => s ≠ ""
  | .date _ => true
  | .bytes _ => true

/-- Whether a `JSVal` is nullish (`null` or `undefined`), as tested by the
`??` operator. -/
def jsNullish : JSVal → Bool
  | .undefined => true
  | .null => true
  | _ => false

/-- JS nullish coalescing `a ?? b`. -/
def jsCoalesce (a b : JSVal) : JSVal :=
  if jsNullish a then b else a

/-- A JS record (plain object) with `JSVal` fields; key order is the JS
insertion order. -/
def Row := List (String × JSVal)
deriving instance DecidableEq for Row

/-- JS property read `row[key]`: a missing key yields `undefined`. -/
def jsGet (row : Row) (key : String) : JSVal :=
  match row.lookup key with
  | some v => v
  | none => .undefined

/-- JS computed-key object update `{...m, [k]: v}`: an existing key keeps
its original position but gets the new value, a new key is appended. -/
def jsSet {β : Type} : List (String × β) → String → β → List (String × β)
  | [], k, v => [(k, v)]
  | (k0, v0) :: rest, k, v =>
      if k0 = k then (k, v) :: rest else (k0, v0) :: jsSet rest k v

/-- `u.snakeCase` (src/utils.ts): replace every ASCII uppercase letter
`L` by `_l`.  The JS regex is `/[A-Z]/g`, so only ASCII uppercase counts. -/
def snakeCase (s : String) : String :=
  String.mk (s.data.foldr
    (fun c acc => if ('A' ≤ c && c ≤ 'Z') then '_' :: c.toLower :: acc else c :: acc) [])

/-! ## Schema model (src/index.ts) -/

/-- The list of primitive types supported by qx (`Primitive`). -/
inductive Primitive where
  | BINARY | BOOLEAN | DATETIME | FLOAT | INTEGER | TEXT | VARCHAR
deriving DecidableEq, Repr

/-- A column's `default` property: absent, a fixed value, or a
zero-argument producer function. -/
inductive DfltVal where
  | none
  | val (v : JSVal)
  | fn (f : Unit → JSVal)

/-- JS truthiness of the `default` property, as tested by
`if (column.default)` in `resolveInsertValue`: an absent property is
`undefined` (falsy), a function is always truthy, a fixed value uses
ordinary JS truthiness (so `0`, `false` and `""` are falsy). -/
def DfltVal.isTruthy : DfltVal → Bool
  | .none => false
  | .val v => jsTruthy v
  | .fn _ => true

/-- `u.resolve` applied to the `default` property: call it if it is a
function, otherwise return it as-is (an absent property resolves to
`undefined`). -/
def DfltVal.resolve : DfltVal → JSVal
  | .none => .undefined
  | .val v => v
  | .fn f => f ()

/-- A column value (`Column` in src/index.ts): name, owning table or
alias, primitive type, and the optional flags.  The runtime object also
carries a `schema` validator and cached `inferInput` / `inferOutput`
fields, which matter only for field-presence tests (see `Expr.fields`). -/
structure Column where
  name : String
  table : String
  type : Primitive
  nullable : Bool := false
  primaryKey : Bool := false
  autoincrement : Bool := false
  unique : Bool := false
  size : Option Nat := Option.none
  dflt : DfltVal := .none

/-! ## Codec registry (src/bun-sqlite.ts, `CODECS`) -/

/-- JS `~~v` (double bitwise NOT) on an integral value: ToInt32, i.e. the
value wrapped into `[-2^31, 2^31)`.  (On a non-integral number `~~` first
truncates toward zero; the codec claims only concern integral values.) -/
def toInt32 (v : Int) : Int :=
  let m := v % 4294967296
  if m < 2147483648 then m else m - 4294967296

/-- `CODECS.BOOLEAN.encode`: `true → 1`, `false → 0`. -/
def BOOLEAN_encode (b : Bool) : Int := if b then 1 else 0

/-- `CODECS.BOOLEAN.decode`: `1 → true`, anything else `→ false`. -/
def BOOLEAN_decode (n : Int) : Bool := n == 1

/-- `CODECS.DATETIME.encode`: `value.valueOf()`, epoch milliseconds. -/
def DATETIME_encode (d : JSDate) : Int := d.epochMs

/-- `CODECS.DATETIME.decode`: `new Date(value)` on an epoch-millisecond
number, giving back a date with the same epoch value. -/
def DATETIME_decode (n : Int) : JSDate := ⟨n⟩

/-- `CODECS.INTEGER.encode`: `~~value` ("truncate to integer", which on
integral input is ToInt32 wrapping). -/
def INTEGER_encode (v : Int) : Int := toInt32 v

/-- `CODECS.INTEGER.decode`: `~~value`. -/
def INTEGER_decode (v : Int) : Int := toInt32 v

/-- `CODECS.FLOAT.encode`: `value * 1.0`. -/
def FLOAT_encode (v : ℚ) : ℚ := v * 1

/-- `CODECS.FLOAT.decode`: `value * 1.0`. -/
def FLOAT_decode (v : ℚ) : ℚ := v * 1

/-- `CODECS.TEXT.encode` (identity). -/
def TEXT_encode (s : String) : String := s

/-- `CODECS.TEXT.decode` (identity). -/
def TEXT_decode (s : String) : String := s

/-- `CODECS.VARCHAR.encode` (identity). -/
def VARCHAR_encode (s : String) : String := s

/-- `CODECS.VARCHAR.decode` (identity). -/
def VARCHAR_decode (s : String) : String := s

/-- `CODECS.BINARY.encode` (identity on the `Uint8Array`). -/
def BINARY_encode (bs : List UInt8) : List UInt8 := bs

/-- `CODECS.BINARY.decode` (identity on the `Uint8Array`). -/
def BINARY_decode (bs : List UInt8) : List UInt8 := bs

/-- `Number.MAX_SAFE_INTEGER`, the upper bound of the integer column's
declared range (`types.integer` in src/index.ts uses
`min = Number.MIN_SAFE_INTEGER, max = Number.MAX_SAFE_INTEGER`). -/
def MAX_SAFE_INTEGER : Int := 9007199254740991

/-- `Number.MIN_SAFE_INTEGER`. -/
def MIN_SAFE_INTEGER : Int := -9007199254740991

/-! ## Expression algebra (src/index.ts) -/

/-- The closed set of expression nodes (`Expr`).  Binary-op nodes are the
JS objects `{lhs, op, rhs}`; `binOpArr` is the case where `rhs` is an
array of literals (`Array.isArray(value.rhs)`); `and`/`or`/`not` carry a
single field named after the combinator; literals are raw JS values. -/
inductive Expr where
  | col (c : Column)
  | litNull
  | litBool (b : Bool)
  | litNum (n : Int)
  | litStr (s : String)
  | litDate (d : JSDate)
  | binOp (lhs : Expr) (op : String) (rhs : Expr)
  | binOpArr (lhs : Expr) (op : String) (rhs : List Expr)
  | and (es : List Expr)
  | or (es : List Expr)
  | not (e : Expr)

/-- `u.isPlainObject` on an expression node: builder-made nodes and
column objects are plain objects; booleans, numbers, strings, `null` and
`Date` instances (whose prototype is `Date.prototype`) are not. -/
def Expr.isPlainObject : Expr → Bool
  | .col _ => true
  | .binOp _ _ _ => true
  | .binOpArr _ _ _ => true
  | .and _ => true
  | .or _ => true
  | .not _ => true
  | _ => false

/-- The property names each node's JS object actually carries (own keys),
read off the builders in src/index.ts: a column object has
`name`/`table`/`type`/`schema`/`inferInput`/`inferOutput` (plus optional
flags, none of which collide with a guard's probe); binary-op nodes have
exactly `lhs`/`op`/`rhs`; combinators a single `and`/`or`/`not` key;
literals are not objects and have no own keys. -/
def Expr.fields : Expr → List String
  | .col _ => ["name", "table", "type", "schema", "inferInput", "inferOutput"]
  | .binOp _ _ _ => ["lhs", "op", "rhs"]
  | .binOpArr _ _ _ => ["lhs", "op", "rhs"]
  | .and _ => ["and"]
  | .or _ => ["or"]
  | .not _ => ["not"]
  | _ => []

/-- `is.binaryOp`: plain object with `op`, `lhs` and `rhs` keys. -/
def isBinaryOp (e : Expr) : Bool :=
  e.isPlainObject && e.fields.contains "op" && e.fields.contains "lhs" && e.fields.contains "rhs"

/-- `is.and`: plain object with an `and` key. -/
def isAnd (e : Expr) : Bool := e.isPlainObject && e.fields.contains "and"

/-- `is.or`: plain object with an `or` key. -/
def isOr (e : Expr) : Bool := e.isPlainObject && e.fields.contains "or"

/-- `is.not`: plain object with a `not` key. -/
def isNot (e : Expr) : Bool := e.isPlainObject && e.fields.contains "not"

/-- `is.is`: plain object with a key literally named `is`. -/
def isIs (e : Expr) : Bool := e.isPlainObject && e.fields.contains "is"

/-- `is.column`: plain object with `type` and `schema` keys. -/
def isColumn (e : Expr) : Bool :=
  e.isPlainObject && e.fields.contains "type" && e.fields.contains "schema"

/-- `is.null`. -/
def isNullLit (e : Expr) : Bool := match e with | .litNull => true | _ => false

/-- `is.boolean` (`typeof value === 'boolean'`). -/
def isBooleanLit (e : Expr) : Bool := match e with | .litBool _ => true | _ => false

/-- `is.date` (`value instanceof Date`). -/
def isDateLit (e : Expr) : Bool := match e with | .litDate _ => true | _ => false

/-- `is.number` (`typeof expr === 'number'`). -/
def isNumberLit (e : Expr) : Bool := match e with | .litNum _ => true | _ => false

/-- `is.string` (`typeof expr === 'string'`). -/
def isStringLit (e : Expr) : Bool := match e with | .litStr _ => true | _ => false

/-- `is.literal`: `null`, a `Date` instance, or a boolean/number/string. -/
def isLiteral (e : Expr) : Bool :=
  isNullLit e || isDateLit e || isBooleanLit e || isNumberLit e || isStringLit e

/-- The `rhs` argument accepted by `expr.is` / `expr.isNot`:
`true | false | null`. -/
inductive IsRhs where
  | tt | ff | null
deriving DecidableEq, Repr

/-- The literal expression node the `rhs` value becomes inside the built
`IS` / `IS NOT` object. -/
def IsRhs.toExpr : IsRhs → Expr
  | .tt => .litBool true
  | .ff => .litBool false
  | .null => .litNull

/-- `expr.eq`: `{ lhs, op: '=', rhs }`. -/
def exprEq (lhs rhs : Expr) : Expr := .binOp lhs "=" rhs

/-- `expr.gt`: `{ lhs, op: '>', rhs }`. -/
def exprGt (lhs rhs : Expr) : Expr := .binOp lhs ">" rhs

/-- `expr.in` with a literal-array `rhs`: `{ lhs, op: 'IN', rhs }`. -/
def exprIn (lhs : Expr) (rhs : List Expr) : Expr := .binOpArr lhs "IN" rhs

/-- `expr.is`: `{ lhs, op: 'IS', rhs }` — the node carries an `op` field
(and no field named `is`). -/
def exprIs (lhs : Expr) (rhs : IsRhs) : Expr := .binOp lhs "IS" rhs.toExpr

/-- `expr.isNot`: `{ lhs, op: 'IS NOT', rhs }`. -/
def exprIsNot (lhs : Expr) (rhs : IsRhs) : Expr := .binOp lhs "IS NOT" rhs.toExpr

/-- `expr.and`: `{ and: exprs }`. -/
def exprAnd (es : List Expr) : Expr := .and es

/-- `expr.or`: `{ or: exprs }`. -/
def exprOr (es : List Expr) : Expr := .or es

/-! ## Expression rendering (src/bun-sqlite.ts, `render`) -/

/-- The result of rendering SQL (`RenderResult`): fragments plus the
parameters collected so far, in emission order. -/
structure RenderResult where
  frags : List String
  params : List JSVal
deriving DecidableEq, Repr

/-- `EMPTY_RENDER_RESULT`. -/
def EMPTY_RENDER_RESULT : RenderResult := ⟨[], []⟩

/-- `frags.join('')` — all the `glue`d renderers join their fragment
lists with the empty separator, i.e. plain concatenation. -/
def strJoin : List String → String
  | [] => ""
  | s :: ss => s ++ strJoin ss

/-- `render.ref`: double-quote an identifier (template literal
`` `"${value}"` ``). -/
def ref (value : String) : String := "\"" ++ value ++ "\""

mutual

/-- `render.expr.any`: dispatch on the guards in source order
(binaryOp, and, or, not, column, literal).  On the inductive `Expr` the
guard cascade selects exactly one branch per constructor, which this
match reproduces (see `dispatchPath` for the cascade itself). -/
def renderAny : Expr → RenderResult
  | .binOp lhs op rhs =>
      let l := renderAny lhs
      let r := renderAny rhs
      ⟨[strJoin (["("] ++ l.frags ++ [" " ++ op ++ " "] ++ r.frags ++ [")"])],
       l.params ++ r.params⟩
  | .binOpArr lhs op rhs =>
      let l := renderAny lhs
      let inner := renderCollect rhs
      let r : RenderResult :=
        ⟨["(" ++ String.intercalate ", " inner.frags ++ ")"], inner.params⟩
      ⟨[strJoin (["("] ++ l.frags ++ [" " ++ op ++ " "] ++ r.frags ++ [")"])],
       l.params ++ r.params⟩
  | .and es =>
      let inner := renderCollect es
      ⟨["(" ++ String.intercalate " AND " inner.frags ++ ")"], inner.params⟩
  | .or es =>
      let inner := renderCollect es
      ⟨["(" ++ String.intercalate " OR " inner.frags ++ ")"], inner.params⟩
  | .not e =>
      let inner := renderAny e
      ⟨["NOT " ++ strJoin inner.frags], inner.params⟩
  | .col c => ⟨[ref c.table ++ "." ++ ref (snakeCase c.name)], []⟩
  | .litNull => ⟨["NULL"], []⟩
  | .litBool b => ⟨[if b then "TRUE" else "FALSE"], []⟩
  | .litNum n => ⟨["?"], [.num n]⟩
  | .litStr s => ⟨["?"], [.str s]⟩
  | .litDate d => ⟨["?"], [.num (DATETIME_encode d)]⟩
termination_by structural e => e

/-- `reduce(collect(render.expr.any), EMPTY_RENDER_RESULT)`: accumulate
each element's fragments and parameters in order. -/
def renderCollect : List Expr → RenderResult
  | [] => EMPTY_RENDER_RESULT
  | e :: es =>
      let r := renderAny e
      let rest := renderCollect es
      ⟨r.frags ++ rest.frags, r.params ++ rest.params⟩
termination_by structural es => es

end

/-- `render.expr.array`: render each element, join the fragments with
`', '`, and wrap in parentheses (the `binOpArr` branch of `renderAny`
inlines exactly this computation). -/
def renderArray (es : List Expr) : RenderResult :=
  let inner := renderCollect es
  ⟨["(" ++ String.intercalate ", " inner.frags ++ ")"], inner.params⟩

/-- The guard cascade of `render.expr.any`, in source order; names the
rendering path an expression node is dispatched to. -/
def dispatchPath (e : Expr) : String :=
  if isBinaryOp e then "binaryOp"
  else if isAnd e then "and"
  else if isOr e then "or"
  else if isNot e then "not"
  else if isColumn e then "column"
  else if isLiteral e then "literal"
  else "unsupported"

/-! ## Statement model and DDL generation (src/index.ts, src/bun-sqlite.ts) -/

/-- A join clause (`Join`).  `alias` and `on` are Lean tokens, so those
fields are named `tableAlias` / `onExpr`. -/
structure Join where
  type : String
  table : String
  tableAlias : String
  onExpr : Expr

/-- A select statement (`SelectStatement`): alias registry, projection,
from-alias, joins, where, order-by, limit and offset.  `from` and `where`
are Lean keywords, so the fields are named `fromAlias` / `whereClause`. -/
structure SelectStatement where
  registry : List (String × String)
  select : List (String × Column)
  fromAlias : String
  joins : List Join := []
  whereClause : Option Expr := Option.none
  orderBy : List (Expr × String) := []
  limit : Option Int := Option.none
  offset : Option Int := Option.none

/-- A delete statement (`DeleteStatement`). -/
structure DeleteStatement where
  table : String
  tableAlias : String
  whereClause : Option Expr := Option.none

/-- A create-table statement (`CreateTableStatement`). -/
structure CreateTableStatement where
  table : String
  columns : List Column
  ifNotExists : Bool := false
  unlogged : Bool := false

/-- An insert statement (`InsertStatement`). -/
structure InsertStatement where
  table : String
  records : List Row
  insertShape : List (String × Column)
  returnShape : List (String × Column)

/-- A compiled statement (`DDL`): SQL text plus ordered parameters. -/
structure DDL where
  sql : String
  params : List JSVal
deriving DecidableEq, Repr

/-- The JS member read `op.registry[op.from]!` fed into a template
literal: a missing alias yields `undefined`, which stringifies to the
text `undefined` (the `!` is only a compile-time assertion). -/
def jsLookupStr (m : List (String × String)) (k : String) : String :=
  match m.lookup k with
  | some v => v
  | none => "undefined"

/-- `render.selection`: `alias.column AS "outputName"` for every entry,
joined with `', '` (column references go through `render.expr.column`,
which snake-cases the column name). -/
def renderSelection (selection : List (String × Column)) : RenderResult :=
  ⟨[String.intercalate ", "
      (selection.map (fun p => strJoin (renderAny (.col p.2)).frags ++ " AS " ++ ref p.1))], []⟩

/-- `render.join`: `' TYPE "table" AS "alias" ON <on>'` with the on-
expression's parameters. -/
def renderJoin (j : Join) : RenderResult :=
  let result := renderAny j.onExpr
  ⟨[strJoin ([" ", j.type, " ", ref j.table, " AS ", ref j.tableAlias, " ON "] ++ result.frags)],
   result.params⟩

/-- `render.orderBy`: render the expression, append the direction with a
space — the parameters of the expression are returned alongside. -/
def renderOrderBy (p : Expr × String) : RenderResult :=
  let r := renderAny p.1
  ⟨[String.intercalate " " (r.frags ++ [p.2])], r.params⟩

/-- `reduce(collect(fn), EMPTY_RENDER_RESULT)` for a per-item renderer. -/
def collectWith (fn : α → RenderResult) : List α → RenderResult
  | [] => EMPTY_RENDER_RESULT
  | x :: xs =>
      let r := fn x
      let rest := collectWith fn xs
      ⟨r.frags ++ rest.frags, r.params ++ rest.params⟩

/-- `ddl.select`: assembles
`SELECT sel FROM "name" AS "alias" [joins] [WHERE w] [ORDER BY o] [LIMIT ?] [OFFSET ?];`
and concatenates `joins.params ++ where.params ++ limit.params ++
offset.params` (the source splices `orderBy.frags` into the text but does
not include `orderBy.params` in the final parameter list). -/
def ddlSelect (op : SelectStatement) : DDL :=
  let joins := collectWith renderJoin op.joins
  let whereR := match op.whereClause with
    | some w => renderAny w
    | none => EMPTY_RENDER_RESULT
  let orderByR := collectWith renderOrderBy op.orderBy
  let limitR : RenderResult := match op.limit with
    | some n => ⟨[" LIMIT ", "?"], [.num n]⟩
    | none => EMPTY_RENDER_RESULT
  let offsetR : RenderResult := match op.offset with
    | some n => ⟨[" OFFSET ", "?"], [.num n]⟩
    | none => EMPTY_RENDER_RESULT
  let frags : List String :=
    ["SELECT ",
     strJoin (renderSelection op.select).frags,
     " FROM ",
     ref (jsLookupStr op.registry op.fromAlias),
     " AS ",
     ref op.fromAlias]
    ++ joins.frags
    ++ [if whereR.frags.length > 0 then " WHERE " else ""]
    ++ whereR.frags
    ++ [if orderByR.frags.length > 0
        then " ORDER BY " ++ String.intercalate ", " orderByR.frags
        else ""]
    ++ limitR.frags
    ++ offsetR.frags
    ++ [";"]
  ⟨strJoin frags, joins.params ++ whereR.params ++ limitR.params ++ offsetR.params⟩

/-- `ddl.delete`: `DELETE FROM "table" AS "alias" [WHERE w];` with the
where-expression's parameters. -/
def ddlDelete (op : DeleteStatement) : DDL :=
  let whereR := match op.whereClause with
    | some w => renderAny w
    | none => EMPTY_RENDER_RESULT
  let frags : List String :=
    ["DELETE FROM ", ref op.table, " AS ", ref op.tableAlias,
     if whereR.frags.length > 0 then " WHERE " else ""]
    ++ whereR.frags
    ++ [";"]
  ⟨strJoin frags, whereR.params⟩

/-- `TYPES_MAPPING`: qx primitive types to SQLite native types. -/
def TYPES_MAPPING : Primitive → String
  | .BINARY => "BLOB"
  | .BOOLEAN => "INTEGER"
  | .DATETIME => "INTEGER"
  | .FLOAT => "REAL"
  | .INTEGER => "INTEGER"
  | .TEXT => "TEXT"
  | .VARCHAR => "TEXT"

/-- `render.column`: a column definition for CREATE TABLE.  A primary-key
column gets `PRIMARY KEY ASC` (and `AUTOINCREMENT` if requested) and
returns early, skipping `NOT NULL` / `UNIQUE`. -/
def renderColumnDef (col : Column) : String :=
  let base := [ref (snakeCase col.name), TYPES_MAPPING col.type]
  let base := if col.primaryKey then base ++ ["PRIMARY KEY ASC"] else base
  let base := if col.autoincrement then base ++ ["AUTOINCREMENT"] else base
  if col.primaryKey then String.intercalate " " base
  else
    let base := if !col.nullable then base ++ ["NOT NULL"] else base
    let base := if col.unique then base ++ ["UNIQUE"] else base
    String.intercalate " " base

/-- `ddl.createTable`: `CREATE [UNLOGGED ]TABLE [IF NOT EXISTS ]"name"
(col defs);` — no parameters. -/
def ddlCreateTable (op : CreateTableStatement) : DDL :=
  let columns := String.intercalate ", " (op.columns.map renderColumnDef)
  ⟨strJoin ["CREATE ",
            if op.unlogged then "UNLOGGED " else "",
            "TABLE ",
            if op.ifNotExists then "IF NOT EXISTS " else "",
            ref op.table,
            " (", columns, ");"],
   []⟩

/-- `render.row`: one `?` placeholder per insert-shape key, parameters
taken from the record in shape order (`record[key]`, `undefined` when
absent). -/
def renderRow (shape : List (String × Column)) (record : Row) : RenderResult :=
  ⟨["(" ++ String.intercalate ", " (shape.map (fun _ => "?")) ++ ")"],
   shape.map (fun p => jsGet record p.1)⟩

/-- `ddl.insert`: `INSERT INTO "name" ("cols") VALUES (?, ...), ...
RETURNING sel;` with one parameter per cell, row-major. -/
def ddlInsert (op : InsertStatement) : DDL :=
  let values := collectWith (renderRow op.insertShape) op.records
  ⟨strJoin ["INSERT INTO ",
            ref op.table,
            " (",
            String.intercalate ", " (op.insertShape.map (fun p => ref p.1)),
            ") VALUES ",
            String.intercalate ", " values.frags,
            " RETURNING ",
            strJoin (renderSelection op.returnShape).frags,
            ";"],
   values.params⟩

/-! ## Insert value resolution and the insert builder (src/index.ts) -/

/-- `resolveInsertValue`: a column whose `default` property is truthy
takes `row[name] ?? resolve(default)`; otherwise a nullable column takes
`row[name] ?? null`; otherwise the record's value (possibly `undefined`)
is kept. -/
def resolveInsertValue (column : Column) (row : Row) : JSVal :=
  if column.dflt.isTruthy then jsCoalesce (jsGet row column.name) column.dflt.resolve
  else if column.nullable then jsCoalesce (jsGet row column.name) .null
  else jsGet row column.name

/-- `prepareForInsert`: rebuild the record from the insert shape's keys,
resolving each cell; extra fields are dropped. -/
def prepareForInsert (shape : List (String × Column)) (row : Row) : Row :=
  shape.map (fun p => (p.1, resolveInsertValue p.2 row))

/-- A table definition (`Table`): declared name plus named columns in
declaration order. -/
structure TableDef where
  name : String
  columns : List (String × Column)

/-- `getInsertShape`: the table's columns minus autoincrement ones. -/
def getInsertShape (table : TableDef) : List (String × Column) :=
  table.columns.filter (fun p => !p.2.autoincrement)

/-- Per-column standard-schema validation (`buildInsertSchema` uses each
column's `schema`; the schemas come from `types.*` in src/index.ts, with
`std.nullable` wrapped around nullable columns).  The DATETIME schema
coerces epoch numbers to `Date`; its ISO-8601-string coercion is not
modelled (no claim exercises it). -/
def validateField (c : Column) (v : JSVal) : Option JSVal :=
  match c.nullable, v with
  | true, .null => some .null
  | _, _ =>
    match c.type, v with
    | .BOOLEAN, .bool b => some (.bool b)
    | .INTEGER, .num n =>
        if MIN_SAFE_INTEGER ≤ n && n ≤ MAX_SAFE_INTEGER then some (.num n) else Option.none
    | .FLOAT, .num n => some (.num n)
    | .TEXT, .str s => some (.str s)
    | .VARCHAR, .str s => if s.length ≤ c.size.getD 255 then some (.str s) else Option.none
    | .DATETIME, .date d => some (.date d)
    | .DATETIME, .num n => some (.date ⟨n⟩)
    | .BINARY, .bytes bs => some (.bytes bs)
    | _, _ => Option.none

/-- `std.strictObject` validation of one prepared row against the insert
shape: every row key must be in the shape, every shape key in the row,
and each field must pass its column's schema (collecting the possibly
coerced values). -/
def validateRow (shape : List (String × Column)) (row : Row) : Option Row :=
  if row.all (fun p => (shape.lookup p.1).isSome) &&
     shape.all (fun p => (row.lookup p.1).isSome) then
    row.mapM (fun p =>
      match shape.lookup p.1 with
      | some c => (validateField c p.2).map (fun v => (p.1, v))
      | Option.none => Option.none)
  else Option.none

/-- Observable outcome of `InsertBuilder.insert`: how many rows went
through preparation/validation, which statements reached the database
adapter's `insert`, and the value returned (or the validation error
thrown). -/
structure InsertRun where
  validatedRows : Nat
  adapterCalls : List InsertStatement
  result : Except String (List Row)

/-- `InsertBuilder.insert`: with no accumulated rows it returns `[]`
immediately; otherwise it prepares and validates every row (throwing on
issues) and passes a single `InsertStatement` to the adapter. -/
def insertBuilderInsert (table : TableDef) (rows : List Row)
    (dbInsert : InsertStatement → List Row) : InsertRun :=
  if rows.length = 0 then ⟨0, [], .ok []⟩
  else
    let insertShape := getInsertShape table
    let prepared := rows.map (prepareForInsert insertShape)
    match prepared.mapM (validateRow insertShape) with
    | Option.none => ⟨rows.length, [], .error "Failed validation"⟩
    | some records =>
        let stmt : InsertStatement := ⟨table.name, records, insertShape, table.columns⟩
        ⟨rows.length, [stmt], .ok (dbInsert stmt)⟩

/-! ## Query builder (src/index.ts, `QueryBuilder`) and object mutation -/

/-- The `.and` member read on a node that passed `is.and`. -/
def jsAndField : Expr → List Expr
  | .and es => es
  | _ => []

/-- The where-clause combination in `QueryBuilder.where`: no existing
clause takes the new predicate as-is; an existing `And` gets the new
predicate appended to its list; anything else is wrapped as
`And([existing, new])`. -/
def whereCombine (cur : Option Expr) (value : Expr) : Expr :=
  match cur with
  | Option.none => value
  | some w => if isAnd w then exprAnd (jsAndField w ++ [value]) else exprAnd [w, value]

/-- A tiny JS heap: object references are indices into an allocation
list.  Used to make object identity and in-place mutation observable. -/
structure JSHeap (α : Type) where
  objs : List α

/-- Dereference an object. -/
def JSHeap.read {α : Type} (h : JSHeap α) (r : Nat) : Option α := h.objs[r]?

/-- Allocate a fresh object (`new ...` / object literal), returning the
new heap and the fresh reference. -/
def JSHeap.alloc {α : Type} (h : JSHeap α) (v : α) : JSHeap α × Nat :=
  (⟨h.objs ++ [v]⟩, h.objs.length)

/-- Overwrite an existing object in place. -/
def JSHeap.write {α : Type} (h : JSHeap α) (r : Nat) (v : α) : JSHeap α :=
  ⟨h.objs.set r v⟩

/-- An aliased table (`Aliased`): declared name, alias, and the
alias-rebound columns. -/
structure AliasedTable where
  name : String
  tableAlias : String
  columns : List (String × Column)

/-- The `Query` object wrapped by `QueryBuilder`. -/
structure Query where
  registry : List (String × AliasedTable)
  select : List (String × Column)
  fromAlias : String
  joins : List Join := []
  whereClause : Option Expr := Option.none
  orderBy : List (Expr × String) := []
  limit : Option Int := Option.none
  offset : Option Int := Option.none

/-- `QueryBuilder.limit`: `new QueryBuilder({...this.query, limit: n})` —
reads the receiver and allocates a fresh builder.  (The dangling-
reference case cannot arise; it is mapped to a no-op.) -/
def qbLimit (h : JSHeap Query) (r : Nat) (n : Int) : JSHeap Query × Nat :=
  match h.read r with
  | some q => h.alloc { q with limit := some n }
  | Option.none => (h, r)

/-- `QueryBuilder.offset`. -/
def qbOffset (h : JSHeap Query) (r : Nat) (n : Int) : JSHeap Query × Nat :=
  match h.read r with
  | some q => h.alloc { q with offset := some n }
  | Option.none => (h, r)

/-- `QueryBuilder.orderBy`: the callback receives the registry. -/
def qbOrderBy (h : JSHeap Query) (r : Nat)
    (fn : List (String × AliasedTable) → List (Expr × String)) : JSHeap Query × Nat :=
  match h.read r with
  | some q => h.alloc { q with orderBy := fn q.registry }
  | Option.none => (h, r)

/-- `QueryBuilder.select`: replaces the projection. -/
def qbSelect (h : JSHeap Query) (r : Nat)
    (fn : List (String × AliasedTable) → List (String × Column)) : JSHeap Query × Nat :=
  match h.read r with
  | some q => h.alloc { q with select := fn q.registry }
  | Option.none => (h, r)

/-- `QueryBuilder.where`: combines via `whereCombine` and allocates a
fresh builder. -/
def qbWhere (h : JSHeap Query) (r : Nat)
    (fn : List (String × AliasedTable) → Expr) : JSHeap Query × Nat :=
  match h.read r with
  | some q =>
      h.alloc { q with whereClause := some (whereCombine q.whereClause (fn q.registry)) }
  | Option.none => (h, r)

/-- `QueryBuilder.innerJoin`: extends the registry with the joined
table's alias, appends an `INNER JOIN` clause whose on-expression is the
callback applied to the extended registry, and allocates a fresh
builder. -/
def qbInnerJoin (h : JSHeap Query) (r : Nat) (tbl : AliasedTable)
    (onFn : List (String × AliasedTable) → Expr) : JSHeap Query × Nat :=
  match h.read r with
  | some q =>
      let registry := jsSet q.registry tbl.tableAlias tbl
      let join : Join := ⟨"INNER JOIN", tbl.name, tbl.tableAlias, onFn registry⟩
      h.alloc { q with registry := registry, joins := q.joins ++ [join] }
  | Option.none => (h, r)

/-- `InsertBuilder.values`: `this.rows.push(...wrap(rows)); return this`
— appends to the receiver's own `rows` array in place and returns the
very same reference. -/
def ibValues (h : JSHeap (List Row)) (r : Nat) (rows : List Row) :
    JSHeap (List Row) × Nat :=
  match h.read r with
  | some cur => (h.write r (cur ++ rows), r)
  | Option.none => (h, r)

/-! ## Clause-level views of `ddl.select` -/

/-- The projection fragment of a select. -/
def selectionFrag (sel : List (String × Column)) : String :=
  strJoin (renderSelection sel).frags

/-- The joins fragment of a select. -/
def joinsFrag (joins : List Join) : String :=
  strJoin (collectWith renderJoin joins).frags

/-- The WHERE fragment of a select (empty when there is no clause). -/
def whereFrag : Option Expr → String
  | some w => " WHERE " ++ strJoin (renderAny w).frags
  | Option.none => ""

/-- The ORDER BY fragment of a select (empty when there are no items). -/
def orderByFrag (l : List (Expr × String)) : String :=
  if l.isEmpty then ""
  else " ORDER BY " ++ String.intercalate ", " (collectWith renderOrderBy l).frags

/-- The LIMIT fragment of a select. -/
def limitFrag : Option Int → String
  | some _ => " LIMIT ?"
  | Option.none => ""

/-- The OFFSET fragment of a select. -/
def offsetFrag : Option Int → String
  | some _ => " OFFSET ?"
  | Option.none => ""

/-- The parameters contributed by the join-on expressions. -/
def joinParams (joins : List Join) : List JSVal :=
  (collectWith renderJoin joins).params

/-- The parameters contributed by the where-clause. -/
def whereParams : Option Expr → List JSVal
  | some w => (renderAny w).params
  | Option.none => []

/-- The parameters contributed by the order-by expressions (collected by
`render.orderBy` but dropped by `ddl.select`). -/
def orderByParams (l : List (Expr × String)) : List JSVal :=
  (collectWith renderOrderBy l).params

/-- The parameter contributed by LIMIT. -/
def limitParams : Option Int → List JSVal
  | some n => [.num n]
  | Option.none => []

/-- The parameter contributed by OFFSET. -/
def offsetParams : Option Int → List JSVal
  | some n => [.num n]
  | Option.none => []

/-- The number of `?` placeholder tokens in a piece of SQL text. -/
def countPlaceholders (s : String) : Nat :=
  s.data.count '?'

/-! ## The spec's `backups` example table (play.ts / spec §6), aliased as `b1` -/

/-- `backups.id`, aliased onto `b1`. -/
def idCol : Column :=
  { name := "id", table := "b1", type := .INTEGER, primaryKey := true, autoincrement := true }

/-- `backups.parentId`, aliased onto `b1`. -/
def parentIdCol : Column :=
  { name := "parentId", table := "b1", type := .INTEGER, nullable := true }

/-- `backups.path`, aliased onto `b1`. -/
def pathCol : Column :=
  { name := "path", table := "b1", type := .VARCHAR, size := some 255 }

/-- `backups.sizeBytes`, aliased onto `b1`. -/
def sizeBytesCol : Column :=
  { name := "sizeBytes", table := "b1", type := .INTEGER }

/-- `backups.createdAt`, aliased onto `b1` (declared with a producer
default `() => new Date()`). -/
def createdAtCol : Column :=
  { name := "createdAt", table := "b1", type := .DATETIME,
    dflt := .fn (fun _ => .date ⟨1700000000000⟩) }

/-- The timestamp `T` of Scenario C. -/
def scenarioT : JSDate := ⟨1700000000000⟩

/-- Scenario C (spec §8): where =
`And([In(id,[1,3,5]), Or([Eq(parentId,1), Is(parentId,null)]), IsNot(path,null), Gt(createdAt,T)])`,
orderBy = `[(createdAt, DESC)]`, limit 2, offset 0, selecting all of
`backups as b1`'s columns. -/
def scenarioC : SelectStatement :=
  { registry := [("b1", "backups")],
    select := [("id", idCol), ("parentId", parentIdCol), ("path", pathCol),
               ("sizeBytes", sizeBytesCol), ("createdAt", createdAtCol)],
    fromAlias := "b1",
    whereClause := some (exprAnd
      [exprIn (.col idCol) [.litNum 1, .litNum 3, .litNum 5],
       exprOr [exprEq (.col parentIdCol) (.litNum 1), exprIs (.col parentIdCol) .null],
       exprIsNot (.col pathCol) .null,
       exprGt (.col createdAtCol) (.litDate scenarioT)]),
    orderBy := [(.col createdAtCol, "DESC")],
    limit := some 2,
    offset := some 0 }

/-- A select whose only order-by expression is the number literal `5`:
`render.orderBy` emits a `?` for it, but `ddl.select` drops the
collected parameter. -/
def orderByLiteralSelect : SelectStatement :=
  { registry := [("b1", "backups")],
    select := [("id", idCol)],
    fromAlias := "b1",
    orderBy := [(.litNum 5, "ASC")] }

/-- A select whose `from` alias (`b1`) has no entry in the alias
registry. -/
def missingAliasSelect : SelectStatement :=
  { registry := [], select := [("id", idCol)], fromAlias := "b1" }

/-- The SQL token an `IS` / `IS NOT` right-hand side renders to. -/
def isRhsToken : IsRhs → String
  | .tt => "TRUE"
  | .ff => "FALSE"
  | .null => "NULL"

/-- A non-nullable column whose declared default is the falsy value `0`. -/
def zeroDefaultCol : Column :=
  { name := "n", table := "t", type := .INTEGER, dflt := .val (.num 0) }

/-- A heap holding a single `InsertBuilder` rows array, initially empty. -/
def ibHeap0 : JSHeap (List Row) := ⟨[[]]⟩

/-- A sample row to insert. -/
def ibRow1 : Row := [("path", .str "/a")]

/-- A minimal query object. -/
def emptyQuery : Query := { registry := [], select := [], fromAlias := "b1" }

/-- A heap holding a single `QueryBuilder` query object. -/
def qbHeap0 : JSHeap Query := ⟨[emptyQuery]⟩

/-! ## General lemmas -/

theorem strJoin_append (a b : List String) :
    strJoin (a ++ b) = strJoin a ++ strJoin b := by
  induction a with
  | nil => simp [strJoin]
  | cons s ss ih => simp [strJoin, ih, String.append_assoc]

/-- Every expression renderer is `glue`d: it produces exactly one
fragment. -/
theorem renderAny_frags_length (e : Expr) : (renderAny e).frags.length = 1 := by
  cases e <;> rfl

/-- `render.orderBy` produces one fragment per item. -/
theorem collectWith_renderOrderBy_length (l : List (Expr × String)) :
    (collectWith renderOrderBy l).frags.length = l.length := by
  induction l with
  | nil => simp [collectWith, EMPTY_RENDER_RESULT]
  | cons p ps ih => simp [collectWith, renderOrderBy, ih]

/-- The compiled text of a select, clause by clause, in emission order. -/
theorem ddlSelect_sql (op : SelectStatement) :
    (ddlSelect op).sql =
      "SELECT " ++ selectionFrag op.select ++ " FROM "
        ++ ref (jsLookupStr op.registry op.fromAlias) ++ " AS " ++ ref op.fromAlias
        ++ joinsFrag op.joins ++ whereFrag op.whereClause ++ orderByFrag op.orderBy
        ++ limitFrag op.limit ++ offsetFrag op.offset ++ ";" := by
  obtain ⟨reg, sel, fa, js, wc, ob, lim, off⟩ := op
  simp only [ddlSelect]
  cases wc <;> cases lim <;> cases off <;> cases ob <;>
    simp [strJoin_append, strJoin, selectionFrag, joinsFrag, whereFrag, orderByFrag,
          limitFrag, offsetFrag, renderAny_frags_length, collectWith_renderOrderBy_length,
          collectWith, renderOrderBy, EMPTY_RENDER_RESULT, String.append_assoc]

/-- The compiled parameters of a select: join-on params, then where
params, then the limit param, then the offset param (order-by params are
not included). -/
theorem ddlSelect_params (op : SelectStatement) :
    (ddlSelect op).params =
      joinParams op.joins ++ whereParams op.whereClause
        ++ limitParams op.limit ++ offsetParams op.offset := by
  obtain ⟨reg, sel, fa, js, wc, ob, lim, off⟩ := op
  cases wc <;> cases lim <;> cases off <;>
    simp [ddlSelect, joinParams, whereParams, limitParams, offsetParams, EMPTY_RENDER_RESULT]

/-- Allocation leaves every previously allocated object unchanged. -/
theorem JSHeap.read_alloc_lt {α : Type} (h : JSHeap α) (v : α) (i : Nat)
    (hi : i < h.objs.length) : (h.alloc v).1.read i = h.read i := by
  simp only [JSHeap.alloc, JSHeap.read]
  rw [List.getElem?_append]
  simp [hi]

/-- Allocation returns a reference to the new object. -/
theorem JSHeap.read_alloc_self {α : Type} (h : JSHeap α) (v : α) :
    (h.alloc v).1.read (h.alloc v).2 = some v := by
  simp [JSHeap.alloc, JSHeap.read]

/-- Writing an existing reference makes the new value observable at that
reference. -/
theorem JSHeap.read_write_self {α : Type} (h : JSHeap α) (r : Nat) (v : α)
    (hr : r < h.objs.length) : (h.write r v).read r = some v := by
  simp [JSHeap.write, JSHeap.read, List.getElem?_set, hr]

/-! ## Claims -/

/-- C1.  The placeholder/parameter parity invariant fails on the code for
a Select whose order-by expressions contain literals: compiling
`orderByLiteralSelect` (order by the number literal `5`) yields text with
exactly one `?` placeholder but an empty parameter list, because
`ddl.select` splices `orderBy.frags` into the text while omitting
`orderBy.params` (which `render.orderBy` did collect) from the final
parameter concatenation. -/
theorem c1_orderBy_literal_breaks_parity :
    (ddlSelect orderByLiteralSelect).sql
        = "SELECT \"b1\".\"id\" AS \"id\" FROM \"backups\" AS \"b1\" ORDER BY ? ASC;"
      ∧ countPlaceholders (ddlSelect orderByLiteralSelect).sql = 1
      ∧ (ddlSelect orderByLiteralSelect).params = []
      ∧ orderByParams orderByLiteralSelect.orderBy = [.num 5] := by
  refine ⟨by decide, by decide, by decide, by decide⟩

/-- C2.  For every Select, the compiled text places the clauses in the
order SELECT projection, FROM alias, joins, WHERE, ORDER BY, LIMIT,
OFFSET, and the parameter list is join-on params, then where params, then
the limit param, then the offset param; Scenario C (where =
And([In(id,[1,3,5]), Or([Eq(parentId,1), Is(parentId,null)]),
IsNot(path,null), Gt(createdAt,T)]), orderBy = [(createdAt, DESC)],
limit 2, offset 0) compiles with parameters exactly
[1, 3, 5, 1, encoded T, 2, 0]. -/
theorem c2_select_clause_and_param_order :
    (∀ op : SelectStatement,
        (ddlSelect op).sql =
          "SELECT " ++ selectionFrag op.select ++ " FROM "
            ++ ref (jsLookupStr op.registry op.fromAlias) ++ " AS " ++ ref op.fromAlias
            ++ joinsFrag op.joins ++ whereFrag op.whereClause ++ orderByFrag op.orderBy
            ++ limitFrag op.limit ++ offsetFrag op.offset ++ ";"
      ∧ (ddlSelect op).params =
          joinParams op.joins ++ whereParams op.whereClause
            ++ limitParams op.limit ++ offsetParams op.offset)
  ∧ (ddlSelect scenarioC).params =
      [.num 1, .num 3, .num 5, .num 1, .num 1700000000000, .num 2, .num 0]
  ∧ (ddlSelect scenarioC).sql =
      "SELECT \"b1\".\"id\" AS \"id\", \"b1\".\"parent_id\" AS \"parentId\", \"b1\".\"path\" AS \"path\", \"b1\".\"size_bytes\" AS \"sizeBytes\", \"b1\".\"created_at\" AS \"createdAt\" FROM \"backups\" AS \"b1\" WHERE ((\"b1\".\"id\" IN (?, ?, ?)) AND ((\"b1\".\"parent_id\" = ?) OR (\"b1\".\"parent_id\" IS NULL)) AND (\"b1\".\"path\" IS NOT NULL) AND (\"b1\".\"created_at\" > ?)) ORDER BY \"b1\".\"created_at\" DESC LIMIT ? OFFSET ?;" := by
  refine ⟨fun op => ⟨ddlSelect_sql op, ddlSelect_params op⟩, by decide, by decide⟩

/-- C3 counterexample.  Compiling a Select whose `from` alias is absent
from the alias registry does not fail with any error: it produces SQL
text in which the FROM target is the literal identifier `"undefined"`
(the JS lookup yields `undefined`, stringified by the template literal;
the non-null assertion `!` has no runtime effect, and no
`ColumnResolutionError` exists anywhere in the code). -/
theorem c3_counterexample :
    ddlSelect missingAliasSelect =
      ⟨"SELECT \"b1\".\"id\" AS \"id\" FROM \"undefined\" AS \"b1\";", []⟩ := by
  decide

/-- C3 (amended).  For every Select whose `from` alias is not a key of
the alias registry, compilation succeeds and renders the quoted text
`undefined` as the FROM target — no error is raised. -/
theorem c3_amended_missing_alias_renders_undefined (op : SelectStatement)
    (h : op.registry.lookup op.fromAlias = Option.none) :
    (ddlSelect op).sql =
      "SELECT " ++ selectionFrag op.select ++ " FROM " ++ ref "undefined" ++ " AS "
        ++ ref op.fromAlias ++ joinsFrag op.joins ++ whereFrag op.whereClause
        ++ orderByFrag op.orderBy ++ limitFrag op.limit ++ offsetFrag op.offset ++ ";" := by
  have h2 : jsLookupStr op.registry op.fromAlias = "undefined" := by
    simp [jsLookupStr, h]
  rw [ddlSelect_sql, h2]

/-- Witness for C3 (amended) at `missingAliasSelect`. -/
theorem c3_amended_witness :
    (ddlSelect missingAliasSelect).sql =
      "SELECT " ++ selectionFrag missingAliasSelect.select ++ " FROM " ++ ref "undefined"
        ++ " AS " ++ ref missingAliasSelect.fromAlias ++ joinsFrag missingAliasSelect.joins
        ++ whereFrag missingAliasSelect.whereClause ++ orderByFrag missingAliasSelect.orderBy
        ++ limitFrag missingAliasSelect.limit ++ offsetFrag missingAliasSelect.offset ++ ";" :=
  c3_amended_missing_alias_renders_undefined missingAliasSelect (by decide)

/-- C5.  The round-trip codec law `decode(encode(v)) = v` holds for
BOOLEAN, DATETIME (to millisecond precision), TEXT, VARCHAR, BINARY and
FLOAT, but fails for INTEGER inside the integer column's declared range
`MIN_SAFE_INTEGER..MAX_SAFE_INTEGER`: the codec's `~~value` wraps at
2^31, so the in-range value 2147483648 round-trips to -2147483648. -/
theorem c5_integer_codec_wraps_at_2_31 :
    (∀ b, BOOLEAN_decode (BOOLEAN_encode b) = b)
  ∧ (∀ d, DATETIME_decode (DATETIME_encode d) = d)
  ∧ (∀ s, TEXT_decode (TEXT_encode s) = s)
  ∧ (∀ s, VARCHAR_decode (VARCHAR_encode s) = s)
  ∧ (∀ bs, BINARY_decode (BINARY_encode bs) = bs)
  ∧ (∀ q : ℚ, FLOAT_decode (FLOAT_encode q) = q)
  ∧ MIN_SAFE_INTEGER ≤ 2147483648 ∧ (2147483648 : Int) ≤ MAX_SAFE_INTEGER
  ∧ INTEGER_decode (INTEGER_encode 2147483648) = -2147483648
  ∧ (-2147483648 : Int) ≠ 2147483648 := by
  refine ⟨fun b => by cases b <;> rfl, fun d => rfl, fun s => rfl, fun s => rfl,
          fun bs => rfl, fun q => by simp [FLOAT_encode, FLOAT_decode],
          by decide, by decide, by decide, by decide⟩

/-- C8.  Literal rendering: `null` renders as the token `NULL` with no
parameter; booleans render as the tokens `TRUE` / `FALSE` with no
parameter; numbers and strings render as a single `?` placeholder whose
parameter is the value itself; `Date` literals render as a single `?`
placeholder whose parameter is the DATETIME-encoded value (epoch
milliseconds). -/
theorem c8_literal_rendering :
    renderAny .litNull = ⟨["NULL"], []⟩
  ∧ (∀ b, renderAny (.litBool b) = ⟨[if b then "TRUE" else "FALSE"], []⟩)
  ∧ (∀ n, renderAny (.litNum n) = ⟨["?"], [.num n]⟩)
  ∧ (∀ s, renderAny (.litStr s) = ⟨["?"], [.str s]⟩)
  ∧ (∀ d, renderAny (.litDate d) = ⟨["?"], [.num (DATETIME_encode d)]⟩) := by
  refine ⟨by simp [renderAny], fun b => by simp [renderAny], fun n => by simp [renderAny],
          fun s => by simp [renderAny], fun d => by simp [renderAny]⟩

/-- C10.  `InsertBuilder.insert` with no accumulated rows returns the
empty array immediately: zero rows are prepared or validated and no
statement reaches the database adapter. -/
theorem c10_empty_insert_short_circuits (table : TableDef)
    (dbInsert : InsertStatement → List Row) :
    insertBuilderInsert table [] dbInsert = ⟨0, [], .ok []⟩ := rfl

/-- C4 counterexample.  `InsertBuilder.values` does mutate a previously
returned value: pushing a row into a builder whose rows array is empty
returns the very same reference, and reading the original reference
afterwards observes the appended row — the receiver is not left
observationally unchanged. -/
theorem c4_counterexample :
    (ibValues ibHeap0 0 [ibRow1]).2 = 0
  ∧ (ibValues ibHeap0 0 [ibRow1]).1.read 0 = some [ibRow1]
  ∧ ¬((ibValues ibHeap0 0 [ibRow1]).1.read 0 = ibHeap0.read 0) := by
  decide

/-- C4 (amended).  Every `QueryBuilder` step (`innerJoin`, `limit`,
`offset`, `orderBy`, `select`, `where`) allocates a fresh builder and
leaves every previously allocated object — in particular the receiver —
observationally unchanged; `InsertBuilder.values`, by contrast, appends
to the receiver's own rows array in place and returns the same
reference. -/
theorem c4_amended_builder_mutation :
    (∀ (h : JSHeap Query) (r : Nat) (n : Int) (i : Nat) (q : Query),
        h.read r = some q → i < h.objs.length →
        (qbLimit h r n).1.read i = h.read i ∧ (qbLimit h r n).2 = h.objs.length)
  ∧ (∀ (h : JSHeap Query) (r : Nat) (n : Int) (i : Nat) (q : Query),
        h.read r = some q → i < h.objs.length →
        (qbOffset h r n).1.read i = h.read i ∧ (qbOffset h r n).2 = h.objs.length)
  ∧ (∀ (h : JSHeap Query) (r i : Nat) (q : Query)
        (fn : List (String × AliasedTable) → List (Expr × String)),
        h.read r = some q → i < h.objs.length →
        (qbOrderBy h r fn).1.read i = h.read i ∧ (qbOrderBy h r fn).2 = h.objs.length)
  ∧ (∀ (h : JSHeap Query) (r i : Nat) (q : Query)
        (fn : List (String × AliasedTable) → List (String × Column)),
        h.read r = some q → i < h.objs.length →
        (qbSelect h r fn).1.read i = h.read i ∧ (qbSelect h r fn).2 = h.objs.length)
  ∧ (∀ (h : JSHeap Query) (r i : Nat) (q : Query)
        (fn : List (String × AliasedTable) → Expr),
        h.read r = some q → i < h.objs.length →
        (qbWhere h r fn).1.read i = h.read i ∧ (qbWhere h r fn).2 = h.objs.length)
  ∧ (∀ (h : JSHeap Query) (r i : Nat) (q : Query) (tbl : AliasedTable)
        (onFn : List (String × AliasedTable) → Expr),
        h.read r = some q → i < h.objs.length →
        (qbInnerJoin h r tbl onFn).1.read i = h.read i
          ∧ (qbInnerJoin h r tbl onFn).2 = h.objs.length)
  ∧ (∀ (h : JSHeap (List Row)) (r : Nat) (rows cur : List Row),
        h.read r = some cur →
        (ibValues h r rows).2 = r ∧ (ibValues h r rows).1.read r = some (cur ++ rows)) := by
  refine ⟨?_, ?_, ?_, ?_, ?_, ?_, ?_⟩
  · intro h r n i q hq hi
    simp only [qbLimit, hq]
    exact ⟨JSHeap.read_alloc_lt h _ i hi, rfl⟩
  · intro h r n i q hq hi
    simp only [qbOffset, hq]
    exact ⟨JSHeap.read_alloc_lt h _ i hi, rfl⟩
  · intro h r i q fn hq hi
    simp only [qbOrderBy, hq]
    exact ⟨JSHeap.read_alloc_lt h _ i hi, rfl⟩
  · intro h r i q fn hq hi
    simp only [qbSelect, hq]
    exact ⟨JSHeap.read_alloc_lt h _ i hi, rfl⟩
  · intro h r i q fn hq hi
    simp only [qbWhere, hq]
    exact ⟨JSHeap.read_alloc_lt h _ i hi, rfl⟩
  · intro h r i q tbl onFn hq hi
    simp only [qbInnerJoin, hq]
    exact ⟨JSHeap.read_alloc_lt h _ i hi, rfl⟩
  · intro h r rows cur hc
    have hr : r < h.objs.length := by
      by_contra hn
      have hnone : h.read r = Option.none := by
        simp only [JSHeap.read]
        exact List.getElem?_eq_none (Nat.le_of_not_lt hn)
      rw [hnone] at hc
      exact Option.noConfusion hc
    refine ⟨by simp [ibValues, hc], ?_⟩
    simp only [ibValues, hc]
    exact JSHeap.read_write_self h r _ hr

/-- Witness for C4 (amended): `QueryBuilder.limit` on a concrete
one-object heap leaves the receiver unchanged and returns a fresh
reference. -/
theorem c4_amended_witness :
    (qbLimit qbHeap0 0 5).1.read 0 = qbHeap0.read 0 ∧ (qbLimit qbHeap0 0 5).2 = 1 :=
  c4_amended_builder_mutation.1 qbHeap0 0 5 0 emptyQuery rfl (by decide)

/-- C6.  Where-clause composition in `QueryBuilder.where` (modelled by
`whereCombine`): appending `p2` to an existing `And([p0,p1])` yields the
flat `And([p0,p1,p2])`; with no existing clause the result is `p2`
itself; appending to a non-`And` clause wraps as `And([existing, p2])`. -/
theorem c6_where_clause_flattening :
    (∀ p0 p1 p2 : Expr,
        whereCombine (some (exprAnd [p0, p1])) p2 = exprAnd [p0, p1, p2])
  ∧ (∀ p2 : Expr, whereCombine Option.none p2 = p2)
  ∧ (∀ e p2 : Expr, isAnd e = false → whereCombine (some e) p2 = exprAnd [e, p2]) := by
  refine ⟨fun p0 p1 p2 => rfl, fun p2 => rfl, fun e p2 h => ?_⟩
  simp [whereCombine, h]

/-- Witness for C6 at a non-`And` existing clause. -/
theorem c6_where_clause_flattening_witness :
    whereCombine (some (Expr.litNum 7)) (Expr.litNum 8)
      = exprAnd [Expr.litNum 7, Expr.litNum 8] :=
  c6_where_clause_flattening.2.2 (Expr.litNum 7) (Expr.litNum 8) (by decide)

/-- C7 counterexample.  A column whose declared default is the falsy
value `0` does not fall back to that default: `if (column.default)` is a
truthiness test, so for a non-nullable column with default `0` and an
absent record value the resolved value is `undefined`, not `0`. -/
theorem c7_counterexample :
    resolveInsertValue zeroDefaultCol ([] : Row) = JSVal.undefined
  ∧ JSVal.undefined ≠ JSVal.num 0 := by
  decide

/-- C7 (amended).  Value resolution before insert compilation: a column
whose declared default is truthy (a producer function, or a truthy
value — falsy defaults such as 0, false or the empty string are treated
as if no default were declared) takes the record's value when present
and non-nullish and otherwise the evaluated default; a nullable column
(without a truthy default) with no value becomes explicit null; a column
with neither truthy default nor nullable keeps the record's value,
possibly absent. -/
theorem c7_amended_insert_value_resolution (c : Column) (row : Row) :
    (jsNullish (jsGet row c.name) = false →
        resolveInsertValue c row = jsGet row c.name)
  ∧ (jsNullish (jsGet row c.name) = true → c.dflt.isTruthy = true →
        resolveInsertValue c row = c.dflt.resolve)
  ∧ (jsNullish (jsGet row c.name) = true → c.dflt.isTruthy = false → c.nullable = true →
        resolveInsertValue c row = JSVal.null)
  ∧ (c.dflt.isTruthy = false → c.nullable = false →
        resolveInsertValue c row = jsGet row c.name) := by
  refine ⟨fun h => ?_, fun h hd => ?_, fun h hd hn => ?_, fun hd hn => ?_⟩
  · by_cases hd : c.dflt.isTruthy <;> by_cases hn : c.nullable <;>
      simp [resolveInsertValue, jsCoalesce, h, hd, hn]
  · simp [resolveInsertValue, jsCoalesce, h, hd]
  · simp [resolveInsertValue, jsCoalesce, h, hd, hn]
  · simp [resolveInsertValue, hd, hn]

/-- Witness for C7 (amended): a present non-nullish record value wins
over the (falsy) default. -/
theorem c7_amended_witness :
    resolveInsertValue zeroDefaultCol [("n", JSVal.num 7)] = JSVal.num 7 :=
  (c7_amended_insert_value_resolution zeroDefaultCol [("n", JSVal.num 7)]).1 (by decide)

/-- C9.  For every `lhs` and every `rhs` in {true, false, null}, the node
built by `expr.is` (and `expr.isNot`) carries an `op` field and no field
named `is`; the type guard `is.is` therefore returns false on it, yet the
node satisfies `is.binaryOp` and the compiler's dispatch renders it
through the binary-op path. -/
theorem c9_is_nodes_dispatch_as_binary_ops :
    (∀ (lhs : Expr) (r : IsRhs),
        (exprIs lhs r).fields.contains "op" = true
      ∧ (exprIs lhs r).fields.contains "is" = false
      ∧ isIs (exprIs lhs r) = false
      ∧ isBinaryOp (exprIs lhs r) = true
      ∧ dispatchPath (exprIs lhs r) = "binaryOp"
      ∧ renderAny (exprIs lhs r) =
          ⟨["(" ++ strJoin (renderAny lhs).frags ++ " IS " ++ isRhsToken r ++ ")"],
           (renderAny lhs).params⟩)
  ∧ (∀ (lhs : Expr) (r : IsRhs),
        (exprIsNot lhs r).fields.contains "op" = true
      ∧ (exprIsNot lhs r).fields.contains "is" = false
      ∧ isIs (exprIsNot lhs r) = false
      ∧ isBinaryOp (exprIsNot lhs r) = true
      ∧ dispatchPath (exprIsNot lhs r) = "binaryOp"
      ∧ renderAny (exprIsNot lhs r) =
          ⟨["(" ++ strJoin (renderAny lhs).frags ++ " IS NOT " ++ isRhsToken r ++ ")"],
           (renderAny lhs).params⟩) := by
  constructor <;> intro lhs r <;> refine ⟨rfl, rfl, rfl, rfl, rfl, ?_⟩ <;> cases r <;>
    simp [exprIs, exprIsNot, IsRhs.toExpr, isRhsToken, renderAny, strJoin, strJoin_append,
          String.append_assoc]

end Qx
